import Mathlib

/-!
Verification development for the httm version-lookup engine and recursive
enumeration pipeline (src/lookup/versions.rs, src/exec/recursive.rs,
src/library/utility.rs).

Paths are modelled as lists of components (`List String`), mirroring Rust's
`Path::components`.  Filesystem metadata `(modify_time, size)` is modelled as
a pair of naturals.  The ambient filesystem (stat results) is passed
explicitly as a finite association list.
-/

namespace Httm

/-- A filesystem path, as its list of components below the root.  The empty
list is the root `/`. -/
abbrev SPath := List String

/-- File metadata as stored by the engine: `(modify_time, size)`. -/
abbrev Meta := Nat × Nat

/-- Modelled from the spec (the `PathData` value object lives in
`src/data/paths.rs`, which is not part of this source set): an absolute path
together with optional `(modify_time, size)` metadata.  Absent metadata marks
the record phantom.  Equality and ordering are by absolute path; metadata
does not participate in identity. -/
structure PathData where
  path_buf : SPath
  metadata : Option Meta
deriving Repr, DecidableEq

/-- Modelled from the spec: `PathData::md_infallible`, the infallible
metadata accessor used by the ditto comparisons.  A phantom record reports
the placeholder metadata (epoch time `0`, size `0`). -/
def PathData.md_infallible (pd : PathData) : Meta :=
  pd.metadata.getD (0, 0)

/-- Rust `Path::strip_prefix` on component lists: remove `pre` from the
front of `p`, or fail. -/
def pathStrip : SPath → SPath → Option SPath
  | [], p => some p
  | _ :: _, [] => none
  | a :: as, b :: bs => if a = b then pathStrip as bs else none

/-- Rust `Path::ancestors`: the path itself, then each parent obtained by
dropping the last component, ending at the root `[]` (realized as the
prefixes of the path, longest first). -/
def ancestors (p : SPath) : List SPath :=
  (List.range (p.length + 1)).map (fun k => p.take (p.length - k))

/-- Boolean lexicographic order on paths (component-wise, `String` order);
this is the `Ord` used by the `BTreeMap` keyed by paths / `PathData`. -/
def pathLtB : SPath → SPath → Bool
  | [], [] => false
  | [], _ :: _ => true
  | _ :: _, [] => false
  | a :: as, b :: bs =>
    if a < b then true else if b < a then false else pathLtB as bs

/-- `PathData` ordering: by absolute path only. -/
def pdLtB (x y : PathData) : Bool := pathLtB x.path_buf y.path_buf

/-- Strict lexicographic order on metadata keys `(modify_time, size)` as a
proposition: the `BTreeMap<(SystemTime, u64), _>` key order. -/
def metaLtP (a b : Meta) : Prop := a.1 < b.1 ∨ (a.1 = b.1 ∧ a.2 < b.2)

instance (a b : Meta) : Decidable (metaLtP a b) := by
  unfold metaLtP; infer_instance

/-- Boolean form of `metaLtP`. -/
def metaLtB (a b : Meta) : Bool := decide (metaLtP a b)

/-- The ambient filesystem for stat calls: a finite map from absolute path
to `(modify_time, size)` metadata for the files that exist. -/
abbrev Fs := List (SPath × Meta)

/-- Stat a path against the modelled filesystem. -/
def statFs (fs : Fs) (p : SPath) : Option Meta :=
  (fs.find? (fun e => e.1 = p)).map Prod.snd

/-- `PathData::from(path)`: record the path with whatever metadata a stat
returns. -/
def pathDataFrom (fs : Fs) (p : SPath) : PathData :=
  { path_buf := p, metadata := statFs fs p }

/-- One insertion into a `BTreeMap` represented as an association list
sorted by `lt`: smaller keys first; inserting an already-present key
replaces the value and keeps the stored key. -/
def btInsert {K V : Type} (lt : K → K → Bool) (k : K) (v : V) :
    List (K × V) → List (K × V)
  | [] => [(k, v)]
  | (k', v') :: t =>
    if lt k k' then (k, v) :: (k', v') :: t
    else if lt k' k then (k', v') :: btInsert lt k v t
    else (k', v) :: t

/-- Collect an iterator of key-value pairs into a `BTreeMap` (insertion in
iteration order; a later pair with an equal key overrides the value). -/
def btCollect {K V : Type} (lt : K → K → Bool) (pairs : List (K × V)) :
    List (K × V) :=
  pairs.foldl (fun acc kv => btInsert lt kv.1 kv.2 acc) []

/-- The error kinds surfaced by the embedded core (`HttmError` carries only
a message in the source; we tag each construction site). -/
inductive ErrKind where
  | pathOutsideDataset
  | noQualifyingDataset
  | noSnapshotsForDataset
  | altsMapMissingForMount
  | noCopiesFound
deriving Repr, DecidableEq

/-- `HttmResult<T>`. -/
abbrev HttmResult (α : Type) := Except ErrKind α

instance {ε α : Type} [DecidableEq ε] [DecidableEq α] :
    DecidableEq (Except ε α) := fun a b =>
  match a, b with
  | .ok x, .ok y =>
    if h : x = y then isTrue (by rw [h])
    else isFalse (fun hc => h (Except.ok.inj hc))
  | .error x, .error y =>
    if h : x = y then isTrue (by rw [h])
    else isFalse (fun hc => h (Except.error.inj hc))
  | .ok _, .error _ => isFalse (fun hc => Except.noConfusion hc)
  | .error _, .ok _ => isFalse (fun hc => Except.noConfusion hc)

/-- `FilesystemType` from `src/data/filesystem_map.rs`. -/
inductive FilesystemType where
  | zfs
  | btrfs
deriving Repr, DecidableEq

/-- `MountType` from `src/data/filesystem_map.rs`. -/
inductive MountType where
  | local
  | network
deriving Repr, DecidableEq

/-- `RemotePathAndFsType` from `src/data/filesystem_map.rs`. -/
structure RemotePathAndFsType where
  remote_dir : SPath
  fs_type : FilesystemType
deriving Repr, DecidableEq

/-- `DatasetMetadata` from `src/data/filesystem_map.rs`. -/
structure DatasetMetadata where
  name : String
  fs_type : FilesystemType
  mount_type : MountType
deriving Repr, DecidableEq

/-- `MostProximateAndOptAlts` from `src/lookup/versions.rs`. -/
structure MostProximateAndOptAlts where
  proximate_dataset_mount : SPath
  opt_datasets_of_interest : Option (List SPath)
deriving Repr, DecidableEq

/-- `MapOfDatasets`: `BTreeMap<PathBuf, DatasetMetadata>`, as its sorted
entry list. -/
abbrev MapOfDatasets := List (SPath × DatasetMetadata)

/-- `MapOfSnaps`: mount path to the ordered snapshot-root paths. -/
abbrev MapOfSnaps := List (SPath × List SPath)

/-- `MapOfAlts`: mount path to its alternate-dataset record. -/
abbrev MapOfAlts := List (SPath × MostProximateAndOptAlts)

/-- `MapOfAliases`: local dir to `(remote dir, fs type)`, as the sorted
entry list of the `BTreeMap` (iteration order is key order). -/
abbrev MapOfAliases := List (SPath × RemotePathAndFsType)

/-- Map lookup on an association list (`BTreeMap::get`). -/
def alookup {V : Type} (m : List (SPath × V)) (k : SPath) : Option V :=
  (m.find? (fun e => e.1 = k)).map Prod.snd

/-- Map membership (`BTreeMap::contains_key`). -/
def acontains {V : Type} (m : List (SPath × V)) (k : SPath) : Bool :=
  m.any (fun e => e.1 = k)

/-- `SnapDatasetType` from `src/lookup/versions.rs`. -/
inductive SnapDatasetType where
  | mostProximate
  | altReplicated
deriving Repr, DecidableEq

/-- `SnapsSelectedForSearch` from `src/lookup/versions.rs`. -/
inductive SnapsSelectedForSearch where
  | mostProximateOnly
  | includeAltReplicated
deriving Repr, DecidableEq

/-- `SnapsSelectedForSearch::get_value`: alt replicated comes first so its
results render above the proximate set. -/
def SnapsSelectedForSearch.get_value :
    SnapsSelectedForSearch → List SnapDatasetType
  | .includeAltReplicated => [.altReplicated, .mostProximate]
  | .mostProximateOnly => [.mostProximate]

/-- Modelled from the spec (the `LastSnapMode` enum lives in
`src/config/generate.rs`, not part of this source set): the five recognized
last-snap modes of section 6 of the spec, matched by name in
`DisplayMap::get_last_snap`. -/
inductive LastSnapMode where
  | any
  | dittoOnly
  | noDittoExclusive
  | noDittoInclusive
  | none
deriving Repr, DecidableEq

/-- `DatasetCollection` from `src/data/filesystem_map.rs`, restricted to the
fields the embedded functions read (`filter_dirs` carries the set used by
`SharedRecursive::is_filter_dir`). -/
structure DatasetCollection where
  map_of_datasets : MapOfDatasets
  map_of_snaps : MapOfSnaps
  opt_map_of_alts : Option MapOfAlts
  opt_map_of_aliases : Option MapOfAliases
  filter_dirs : List SPath
  opt_common_snap_dir : Option SPath
  snaps_selected_for_search : SnapsSelectedForSearch
deriving Repr, DecidableEq

/-- Modelled from the spec (the `Config` struct lives in
`src/config/generate.rs`, not part of this source set): the configuration
fields consumed by the embedded engine and enumeration code, with the
semantics of spec section 6. -/
structure Config where
  dataset_collection : DatasetCollection
  opt_omit_ditto : Bool
  opt_last_snap : Option LastSnapMode
  opt_no_snap : Bool
  opt_no_filter : Bool
  opt_no_hidden : Bool
  opt_no_traverse : Bool
  opt_requested_dir : Option PathData
deriving Repr, DecidableEq

/-- `get_proximate_dataset` from `src/lookup/versions.rs`: walk ancestors
top-down (nearest first) and return the first ancestor that is a key of
`map_of_datasets`; otherwise the `NoQualifyingDataset` error. -/
def get_proximate_dataset (pd : PathData) (map_of_datasets : MapOfDatasets) :
    HttmResult SPath :=
  match (ancestors pd.path_buf).find? (fun a => acontains map_of_datasets a) with
  | some a => .ok a
  | Option.none => .error .noQualifyingDataset

/-- `get_alias_dataset` from `src/lookup/versions.rs`: the remote dir of the
first ancestor (nearest first) that is an alias key, if any. -/
def get_alias_dataset (pd : PathData) (map_of_alias : MapOfAliases) :
    Option SPath :=
  (ancestors pd.path_buf).findSome?
    (fun a => (alookup map_of_alias a).map (fun info => info.remote_dir))

/-- The proximate-mount computation at the head of
`MostProximateAndOptAlts::new`: aliases are consulted first when present,
then the nearest dataset ancestor. -/
def proximate_dataset_mount_of (config : Config) (pd : PathData) :
    HttmResult SPath :=
  match config.dataset_collection.opt_map_of_aliases with
  | some map_of_aliases =>
    match get_alias_dataset pd map_of_aliases with
    | some alias_snap_dir => .ok alias_snap_dir
    | Option.none => get_proximate_dataset pd config.dataset_collection.map_of_datasets
  | Option.none => get_proximate_dataset pd config.dataset_collection.map_of_datasets

/-- `MostProximateAndOptAlts::new` from `src/lookup/versions.rs`.  For the
`AltReplicated` request the alts map is consulted; a missing entry is the
recoverable "map of alts is missing for a supplied mount" error (the
`None` map case is `unreachable!` in the source — modelled as the same
error constructor; no claim exercises it). -/
def MostProximateAndOptAlts.new (config : Config) (pd : PathData)
    (requested_dataset_type : SnapDatasetType) :
    HttmResult MostProximateAndOptAlts := do
  let proximate_dataset_mount ← proximate_dataset_mount_of config pd
  match requested_dataset_type with
  | .mostProximate =>
    pure { proximate_dataset_mount := proximate_dataset_mount
           opt_datasets_of_interest := Option.none }
  | .altReplicated =>
    match config.dataset_collection.opt_map_of_alts with
    | some map_of_alts =>
      match alookup map_of_alts proximate_dataset_mount with
      | some snap_types_for_search => pure snap_types_for_search
      | Option.none => .error .altsMapMissingForMount
    | Option.none => .error .altsMapMissingForMount

/-- `get_relative_path` from `src/lookup/versions.rs`: try the alias-local
prefix when an aliases entry's remote dir equals the proximate mount, and
fall back to stripping the proximate mount prefix; failure of the fallback
is the fatal `PathOutsideDataset` error. -/
def get_relative_path (config : Config) (pd : PathData)
    (proximate_dataset_mount : SPath) : HttmResult SPath :=
  let fallback : HttmResult SPath :=
    match pathStrip proximate_dataset_mount pd.path_buf with
    | some p => .ok p
    | Option.none => .error .pathOutsideDataset
  match config.dataset_collection.opt_map_of_aliases with
  | some map_of_aliases =>
    match map_of_aliases.findSome?
        (fun e => if e.2.remote_dir = proximate_dataset_mount then some e.1
                  else Option.none) with
    | some local_dir =>
      match pathStrip local_dir pd.path_buf with
      | some alias_stripped_path => .ok alias_stripped_path
      | Option.none => fallback
    | Option.none => fallback
  | Option.none => fallback

/-- `RelativePathAndSnapMounts` from `src/lookup/versions.rs`. -/
structure RelativePathAndSnapMounts where
  relative_path : SPath
  snap_mounts : List SPath
deriving Repr, DecidableEq

/-- `RelativePathAndSnapMounts::new`: compute the relative path, then
retrieve the snapshot roots for the dataset of interest; a missing snaps
entry is the recoverable `NoSnapshotsForDataset` error. -/
def RelativePathAndSnapMounts.new (config : Config) (pd : PathData)
    (proximate_dataset_mount : SPath) (dataset_of_interest : SPath) :
    HttmResult RelativePathAndSnapMounts := do
  let relative_path ← get_relative_path config pd proximate_dataset_mount
  match alookup config.dataset_collection.map_of_snaps dataset_of_interest with
  | some snap_mounts =>
    pure { relative_path := relative_path, snap_mounts := snap_mounts }
  | Option.none => .error .noSnapshotsForDataset

/-- `MostProximateAndOptAlts::get_search_bundles`: one bundle per dataset of
interest; the `collect::<Result<Vec<_>>>` short-circuits on the first
failing dataset. -/
def MostProximateAndOptAlts.get_search_bundles (config : Config)
    (s : MostProximateAndOptAlts) (pd : PathData) :
    HttmResult (List RelativePathAndSnapMounts) :=
  match s.opt_datasets_of_interest with
  | some datasets_of_interest =>
    datasets_of_interest.mapM
      (fun dataset_of_interest =>
        RelativePathAndSnapMounts.new config pd s.proximate_dataset_mount
          dataset_of_interest)
  | Option.none => do
    let b ← RelativePathAndSnapMounts.new config pd s.proximate_dataset_mount
      s.proximate_dataset_mount
    pure [b]

/-- `RelativePathAndSnapMounts::get_versions`: stat the relative path under
every snapshot root, key the successful stats by `(modify_time, size)` in a
`BTreeMap` (deduplicating), and return the values in key order. -/
def RelativePathAndSnapMounts.get_versions (fs : Fs)
    (b : RelativePathAndSnapMounts) : List PathData :=
  let keyed : List (Meta × PathData) :=
    ((b.snap_mounts.map (fun path => path ++ b.relative_path)).map
      (fun joined_path => pathDataFrom fs joined_path)).filterMap
      (fun pd => pd.metadata.map (fun md => (md, pd)))
  (btCollect metaLtB keyed).map Prod.snd

/-- Lift the `flat_map` flattening of a `HttmResult` iterator: `Ok`
contributes its value, `Err` contributes nothing. -/
def exceptToList {α : Type} : HttmResult α → List α
  | .ok a => [a]
  | .error _ => []

/-- `DisplayMap::get_last_snap` from `src/lookup/versions.rs`. -/
def get_last_snap (last_snap_mode : LastSnapMode) (pd : PathData)
    (snaps : List PathData) : List PathData :=
  match snaps.getLast? with
  | some last =>
    match last_snap_mode with
    | .any => [last]
    | .dittoOnly =>
      if pd.md_infallible = last.md_infallible then [last] else []
    | .noDittoExclusive =>
      if pd.md_infallible ≠ last.md_infallible then [last] else []
    | .noDittoInclusive =>
      if pd.md_infallible ≠ last.md_infallible then [last] else []
    | .none => []
  | Option.none =>
    match last_snap_mode with
    | .none => [pd]
    | .noDittoInclusive => [pd]
    | _ => []

/-- The per-path candidate pipeline inside `DisplayMap::new`: fan out over
the selected dataset types, flatten the proximity results and the search
bundles (errors contribute nothing), collect every bundle's versions, and
apply the omit-ditto filter. -/
def snaps_for_path (config : Config) (fs : Fs) (pd : PathData) :
    List PathData :=
  ((((config.dataset_collection.snaps_selected_for_search.get_value).flatMap
      (fun dataset_type =>
        exceptToList (MostProximateAndOptAlts.new config pd dataset_type))).flatMap
      (fun dataset_for_search =>
        exceptToList
          (MostProximateAndOptAlts.get_search_bundles config dataset_for_search
            pd))).flatten.flatMap
      (fun search_bundle => search_bundle.get_versions fs)).filter
    (fun snap_version =>
      if config.opt_omit_ditto then
        !(snap_version.md_infallible = pd.md_infallible : Bool)
      else true)

/-- The last-snap dispatch of `DisplayMap::new`: reduce via
`get_last_snap` when the option is set, keep the sequence otherwise. -/
def apply_last_snap (config : Config) (pd : PathData)
    (snaps : List PathData) : List PathData :=
  match config.opt_last_snap with
  | some last_snap_mode => get_last_snap last_snap_mode pd snaps
  | Option.none => snaps

/-- `DisplayMap::new` from `src/lookup/versions.rs`: the live-to-snapshots
map, keyed by `PathData` (path order) in a `BTreeMap`. -/
def DisplayMap.new (config : Config) (fs : Fs) (path_set : List PathData) :
    List (PathData × List PathData) :=
  btCollect pdLtB
    (path_set.map
      (fun pd => (pd, apply_last_snap config pd (snaps_for_path config fs pd))))

/-- `versions_lookup_exec` from `src/lookup/versions.rs`: fail with
`NoCopiesFound` when every value sequence is empty, every live key is
phantom, and snapshot output was not disabled. -/
def versions_lookup_exec (config : Config) (fs : Fs)
    (path_set : List PathData) : HttmResult (List (PathData × List PathData)) :=
  let map_live_to_snaps := DisplayMap.new config fs path_set
  if (map_live_to_snaps.all (fun kv => kv.2.isEmpty)
      && map_live_to_snaps.all (fun kv => kv.1.metadata.isNone)
      && !config.opt_no_snap) then
    .error .noCopiesFound
  else
    .ok map_live_to_snaps

/-- The file-type verdict a `DirEntry` reports (without following links). -/
inductive FileTypeModel where
  | dir
  | file
  | symlink
  | other
deriving Repr, DecidableEq

/-- Modelled from the spec (`BasicDirEntryInfo` lives in
`src/data/paths.rs`, not part of this source set): a directory entry as its
path and optional file-type verdict, exactly the fields the enumeration
code reads. -/
structure BasicDirEntryInfo where
  path : SPath
  file_type : Option FileTypeModel
deriving Repr, DecidableEq

/-- `HttmIsDir::get_filetype` for `BasicDirEntryInfo`
(`src/library/utility.rs`): the stored verdict, or an error when absent. -/
def BasicDirEntryInfo.get_filetype (e : BasicDirEntryInfo) :
    Except Unit FileTypeModel :=
  match e.file_type with
  | some ft => .ok ft
  | Option.none => .error ()

/-- `BasicDirEntryInfo::get_filename`: the final path component. -/
def BasicDirEntryInfo.get_filename (e : BasicDirEntryInfo) : String :=
  (e.path.getLast?).getD ""

/-- The symlink-resolution environment consulted by `httm_is_dir`:
`Path::canonicalize` results and the is-directory verdict of resolved
targets. -/
structure World where
  canonicalizeFn : SPath → Option SPath
  isDirOnDisk : SPath → Bool

/-- `httm_is_dir` from `src/library/utility.rs`: directories are
directories, files are not; a symlink is a directory iff its canonicalized
target is a directory and no ancestor of the entry's path equals the target
(the loop guard); canonicalization failure and exotic file types are
not-a-directory. -/
def httm_is_dir (w : World) (e : BasicDirEntryInfo) : Bool :=
  match e.get_filetype with
  | .ok ft =>
    match ft with
    | .dir => true
    | .file => false
    | .symlink =>
      match w.canonicalizeFn e.path with
      | some link_target =>
        if !w.isDirOnDisk link_target then false
        else (ancestors e.path).all (fun ancestor => ancestor ≠ link_target)
      | Option.none => false
    | .other => false
  | .error _ => false

/-- `SharedRecursive::is_entry_dir` from `src/exec/recursive.rs`: under
`no-traverse` a successful file-type verdict is used alone; otherwise (and
on a failed verdict) defer to `httm_is_dir`. -/
def is_entry_dir (w : World) (config : Config) (e : BasicDirEntryInfo) :
    Bool :=
  if config.opt_no_traverse then
    match e.get_filetype with
    | .ok ft => ft = FileTypeModel.dir
    | .error _ => httm_is_dir w e
  else httm_is_dir w e

/-- Modelled from the spec (the `MaxLen` trait lives in
`src/parse/mounts.rs`, not part of this source set): the maximum component
count over the members of `filter_dirs`. -/
def get_max_len (dirs : List SPath) : Nat :=
  dirs.foldl (fun m d => max m d.length) 0

/-- `SharedRecursive::is_filter_dir` from `src/exec/recursive.rs`, in the
source's test order: the ZFS hidden dir `.zfs`, the Btrfs snapper hidden
dir `.snapshots`, the configured common snap dir, then — unless the path is
the exact user-requested root and unless the component count exceeds the
filter set's maximum depth — membership in `filter_dirs`. -/
def is_filter_dir (config : Config) (e : BasicDirEntryInfo) : Bool :=
  let path := e.path
  if path.getLast? = some ".zfs" || path.getLast? = some ".snapshots" then
    true
  else if (match config.dataset_collection.opt_common_snap_dir with
           | some common_snap_dir => decide (path = common_snap_dir)
           | Option.none => false) then
    true
  else if (match config.opt_requested_dir with
           | some user_requested_dir => decide (user_requested_dir.path_buf = path)
           | Option.none => false) then
    false
  else if path.length > get_max_len config.dataset_collection.filter_dirs then
    false
  else
    config.dataset_collection.filter_dirs.any (fun d => d = path)

/-- The per-entry filter of `SharedRecursive::get_entries_partitioned`:
pass everything under `no-filter`; drop dotfiles under `no-hidden`; drop
directory entries classified by `is_filter_dir`; keep the rest. -/
def keep_entry (config : Config) (e : BasicDirEntryInfo) : Bool :=
  if config.opt_no_filter then true
  else if config.opt_no_hidden && e.get_filename.startsWith "." then false
  else
    match e.get_filetype with
    | .ok ft =>
      if ft = FileTypeModel.dir then !is_filter_dir config e else true
    | .error _ => true

/-- `SharedRecursive::get_entries_partitioned`: filter the directory's
entries and partition them into `(dirs, files)`. -/
def get_entries_partitioned (w : World) (config : Config)
    (entries : List BasicDirEntryInfo) :
    List BasicDirEntryInfo × List BasicDirEntryInfo :=
  (entries.filter (keep_entry config)).partition (is_entry_dir w config)

/-- The payload type of the hangup beacon (`src/library/utility.rs`):
uninhabited, so a receive can never yield a value. -/
inductive Never where
deriving DecidableEq

/-- The observable state of the hangup channel at one poll: merely empty,
or disconnected (every sender dropped). -/
inductive ChannelState where
  | empty
  | disconnected
deriving Repr, DecidableEq

/-- The result type of `crossbeam::channel::Receiver::try_recv`. -/
inductive TryRecvResult where
  | ok (v : Never)
  | errDisconnected
  | errEmpty
deriving DecidableEq

/-- Modelled from the spec (crossbeam channel semantics): polling a
`Receiver<Never>` returns `Empty` or `Disconnected` according to the
channel state; a value is impossible since `Never` is uninhabited. -/
def tryRecv : ChannelState → TryRecvResult
  | .empty => .errEmpty
  | .disconnected => .errDisconnected

/-- `is_channel_closed` from `src/library/utility.rs`: true exactly on
`Disconnected`; the `Ok` branch eliminates the impossible `Never` value. -/
def is_channel_closed (chan : ChannelState) : Bool :=
  match tryRecv chan with
  | .ok never => nomatch never
  | .errDisconnected => true
  | .errEmpty => false

/-- The `RecursiveMainLoop::exec` while-loop over the LIFO queue
(`Vec::pop` takes the back), discretized: `chan t` is the hangup channel's
state at the top-of-iteration check number `t`, `children d` the
directories `Self::new d` appends to the queue (its errors contribute
nothing), and `fuel` a bound on iterations.  The returned list records, in
order, the directories actually processed (a directory is processed only
after its beacon check passes). -/
def enum_loop (chan : Nat → ChannelState) (children : SPath → List SPath) :
    Nat → Nat → List SPath → List SPath
  | 0, _, _ => []
  | fuel + 1, t, queue =>
    match queue.getLast? with
    | Option.none => []
    | some item =>
      if is_channel_closed (chan t) then []
      else item :: enum_loop chan children fuel (t + 1)
        (queue.dropLast ++ children item)

/-! Concrete fixtures used by counterexamples and witnesses. -/

/-- A sample dataset record. -/
def dmFix : DatasetMetadata := { name := "tank", fs_type := .zfs, mount_type := .local }

/-- A baseline configuration: one dataset `/mnt`, no aliases, no options. -/
def cfgBase : Config :=
  { dataset_collection :=
      { map_of_datasets := [(["mnt"], dmFix)]
        map_of_snaps := [(["mnt"], [["mnt", ".zfs", "snapshot", "a"]])]
        opt_map_of_alts := Option.none
        opt_map_of_aliases := Option.none
        filter_dirs := []
        opt_common_snap_dir := Option.none
        snaps_selected_for_search := .mostProximateOnly }
    opt_omit_ditto := false
    opt_last_snap := Option.none
    opt_no_snap := false
    opt_no_filter := false
    opt_no_hidden := false
    opt_no_traverse := false
    opt_requested_dir := Option.none }

/-! Claim C2: the last-snap reduction. -/

/-- A live record for the last-snap fixtures. -/
def pdLive2 : PathData := { path_buf := ["tank", "g"], metadata := some (300, 5) }

/-- A snapshot record for the last-snap fixtures. -/
def pdSnap2 : PathData :=
  { path_buf := ["tank", ".zfs", "snapshot", "a", "g"], metadata := some (100, 5) }

/-- Claim C2, counterexample: with mode `None` and a non-empty sequence the
reduction does not keep the full sequence — it returns the empty sequence
(the `Some(last)` arm of `get_last_snap` falls through to `Vec::new()` for
`LastSnapMode::None`). -/
theorem claim2_counterexample :
    get_last_snap LastSnapMode.none pdLive2 [pdSnap2] = []
    ∧ get_last_snap LastSnapMode.none pdLive2 [pdSnap2] ≠ [pdSnap2] := by
  decide

/-- Claim C2 (amended): with mode `None`, `[L]` is synthesized when the
sequence is empty, and otherwise the reduction yields the empty sequence
(the full sequence is kept unchanged only when the last-snap option is
unset); with mode `NoDittoInclusive`, only the last element is kept when
`meta(last) != meta(L)`, the empty sequence otherwise, and `[L]` is
synthesized when the sequence is empty. -/
theorem claim2_theorem (pd : PathData) (snaps : List PathData) :
    (snaps = [] → get_last_snap LastSnapMode.none pd snaps = [pd])
    ∧ (snaps ≠ [] → get_last_snap LastSnapMode.none pd snaps = [])
    ∧ (snaps = [] → get_last_snap LastSnapMode.noDittoInclusive pd snaps = [pd])
    ∧ (∀ front last, snaps = front ++ [last] →
        get_last_snap LastSnapMode.noDittoInclusive pd snaps =
          if pd.md_infallible ≠ last.md_infallible then [last] else [])
    ∧ (∀ config : Config, config.opt_last_snap = Option.none →
        apply_last_snap config pd snaps = snaps) := by
  refine ⟨?_, ?_, ?_, ?_, ?_⟩
  · intro h; subst h; simp [get_last_snap]
  · intro h
    rcases hq : snaps.getLast? with _ | last
    · exact absurd (List.getLast?_eq_none_iff.mp hq) h
    · simp [get_last_snap, hq]
  · intro h; subst h; simp [get_last_snap]
  · intro front last h; subst h
    simp [get_last_snap, List.getLast?_concat]
  · intro config h; simp [apply_last_snap, h]

/-- Claim C2, witness: the amended theorem at a concrete non-empty
sequence. -/
theorem claim2_witness :
    ([pdSnap2] ≠ ([] : List PathData))
    ∧ get_last_snap LastSnapMode.none pdLive2 [pdSnap2] = [] :=
  ⟨by decide, (claim2_theorem pdLive2 [pdSnap2]).2.1 (by decide)⟩

/-! Claim C3: the relative-path computation. -/

/-- A configuration whose aliases map binds local dir `/a` to remote
`/m`. -/
def cfg3 : Config :=
  { cfgBase with
    dataset_collection :=
      { cfgBase.dataset_collection with
        opt_map_of_aliases :=
          some [(["a"], { remote_dir := ["m"], fs_type := .zfs })] } }

/-- The path `/m/x`, inside the alias's remote dir but outside its local
dir. -/
def pd3 : PathData := { path_buf := ["m", "x"], metadata := some (1, 1) }

/-- Claim C3, counterexample: the path matched an alias (an entry's
`remote_dir` equals the proximate mount `/m`) and the alias's local-dir
prefix `/a` cannot be stripped from `/m/x`, yet the computation does not
fail with `PathOutsideDataset` — it falls back to stripping the proximate
mount and succeeds. -/
theorem claim3_counterexample :
    cfg3.dataset_collection.opt_map_of_aliases =
      some [(["a"], { remote_dir := ["m"], fs_type := .zfs })]
    ∧ pathStrip ["a"] pd3.path_buf = Option.none
    ∧ get_relative_path cfg3 pd3 ["m"] = Except.ok ["x"] := by
  decide

/-- Claim C3 (amended): when the path matched an alias and the alias's
local-dir prefix strips successfully, the relative suffix is the stripped
remainder; in every other case — no alias entry with `remote_dir` equal to
the proximate mount, or alias-prefix stripping failed — the suffix is the
path with the proximate-mount prefix stripped, and only failure of that
fallback strip is the fatal `PathOutsideDataset` error. -/
theorem claim3_theorem (config : Config) (pd : PathData) (prox : SPath) :
    (∀ m local_dir s, config.dataset_collection.opt_map_of_aliases = some m →
      m.findSome?
        (fun e => if e.2.remote_dir = prox then some e.1 else Option.none) =
        some local_dir →
      pathStrip local_dir pd.path_buf = some s →
      get_relative_path config pd prox = .ok s)
    ∧ ((∀ m local_dir s, config.dataset_collection.opt_map_of_aliases = some m →
        m.findSome?
          (fun e => if e.2.remote_dir = prox then some e.1 else Option.none) =
          some local_dir →
        pathStrip local_dir pd.path_buf ≠ some s) →
      get_relative_path config pd prox =
        (match pathStrip prox pd.path_buf with
         | some s => .ok s
         | Option.none => .error .pathOutsideDataset)) := by
  constructor
  · intro m local_dir s hm hfind hstrip
    simp [get_relative_path, hm, hfind, hstrip]
  · intro h
    unfold get_relative_path
    rcases hm : config.dataset_collection.opt_map_of_aliases with _ | m
    · rfl
    · rcases hfind : m.findSome?
        (fun e => if e.2.remote_dir = prox then some e.1 else Option.none) with
        _ | local_dir
      · simp [hfind]
      · rcases hstrip : pathStrip local_dir pd.path_buf with _ | s
        · simp [hfind, hstrip]
        · exact absurd hstrip (h m local_dir s hm hfind)

/-- Claim C3, witness: the fallback case of the amended theorem at a
concrete input with no aliases, where the proximate-mount strip fails and
the fatal error is produced. -/
theorem claim3_witness :
    get_relative_path cfgBase { path_buf := ["q"], metadata := Option.none } ["z"] =
      .error .pathOutsideDataset := by
  have h := (claim3_theorem cfgBase { path_buf := ["q"], metadata := Option.none } ["z"]).2
    (by intro m local_dir s hm hfind; exact Option.noConfusion hm)
  rw [h]
  decide

/-! Claim C10: polling the hangup beacon. -/

/-- Claim C10: `is_channel_closed` is a total function of the channel
state; it returns `true` iff the channel is disconnected and `false` when
it is merely empty; the value-consuming branch is unreachable because the
payload type `Never` is uninhabited (a poll can only report empty or
disconnected). -/
theorem claim10_theorem :
    (∀ v : Never, False)
    ∧ (∀ s : ChannelState,
        is_channel_closed s = true ↔ s = ChannelState.disconnected)
    ∧ (∀ s : ChannelState,
        is_channel_closed s = false ↔ s = ChannelState.empty)
    ∧ (∀ s : ChannelState,
        tryRecv s = TryRecvResult.errDisconnected
        ∨ tryRecv s = TryRecvResult.errEmpty) := by
  constructor
  · intro v; cases v
  · refine ⟨?_, ?_, ?_⟩ <;> intro s <;> cases s <;> decide

/-! Claim C7: cancellation promptness of the live enumeration loop. -/

/-- Once a top-of-iteration check sees the beacon closed, the loop
processes no further directory. -/
theorem enum_loop_eq_nil_of_closed (chan : Nat → ChannelState)
    (children : SPath → List SPath) :
    ∀ fuel t queue, is_channel_closed (chan t) = true →
      enum_loop chan children fuel t queue = [] := by
  intro fuel t queue h
  cases fuel with
  | zero => simp [enum_loop]
  | succ n =>
    rcases hq : queue.getLast? with _ | item
    · simp [enum_loop, hq]
    · simp [enum_loop, hq, h]

/-- Claim C7: the hangup beacon is checked at the top of each directory
iteration (a directory enters the output only after its check passes), so
a closed check processes nothing further, and if the beacon is closed by
the next check — i.e. it closed during the current iteration — at most one
additional directory is processed before the loop halts. -/
theorem claim7_theorem (chan : Nat → ChannelState)
    (children : SPath → List SPath) (fuel t : Nat) (queue : List SPath) :
    (is_channel_closed (chan t) = true →
      enum_loop chan children fuel t queue = [])
    ∧ (is_channel_closed (chan (t + 1)) = true →
      (enum_loop chan children fuel t queue).length ≤ 1) := by
  constructor
  · exact enum_loop_eq_nil_of_closed chan children fuel t queue
  · intro h
    cases fuel with
    | zero => simp [enum_loop]
    | succ n =>
      rcases hq : queue.getLast? with _ | item
      · simp [enum_loop, hq]
      · by_cases hc : is_channel_closed (chan t) = true
        · simp [enum_loop, hq, hc]
        · simp only [enum_loop, hq, hc, if_false, Bool.not_eq_true] at *
          simp [hc, enum_loop_eq_nil_of_closed chan children n (t + 1) _ h]

/-- A beacon that closes between the first and second checks. -/
def chanW7 : Nat → ChannelState :=
  fun n => if 1 ≤ n then ChannelState.disconnected else ChannelState.empty

/-- Claim C7, witness: the loop over a two-element queue with a beacon
that closes during the first iteration processes at most one directory. -/
theorem claim7_witness :
    is_channel_closed (chanW7 1) = true
    ∧ (enum_loop chanW7 (fun _ => []) 5 0 [["a"], ["b"]]).length ≤ 1 :=
  ⟨by decide,
   (claim7_theorem chanW7 (fun _ => []) 5 0 [["a"], ["b"]]).2 (by decide)⟩

/-! Claim C9: symlink classification. -/

/-- Claim C9: for a directory entry that is a symlink, with `no-traverse`
set the classification is not-a-directory from the file-type verdict alone
(independent of any link resolution); with `no-traverse` unset the entry is
a directory iff its canonicalized target is a directory and no ancestor of
the entry's path equals the target, canonicalization failure classifying
as not-a-directory. -/
theorem claim9_theorem (w : World) (config : Config) (e : BasicDirEntryInfo)
    (h : e.file_type = some FileTypeModel.symlink) :
    (config.opt_no_traverse = true →
      is_entry_dir w config e = false
      ∧ ∀ w' : World, is_entry_dir w' config e = is_entry_dir w config e)
    ∧ (config.opt_no_traverse = false →
      (is_entry_dir w config e = true ↔
        ∃ target, w.canonicalizeFn e.path = some target
          ∧ w.isDirOnDisk target = true
          ∧ ∀ a ∈ ancestors e.path, a ≠ target)) := by
  constructor
  · intro hnt
    refine ⟨?_, fun w' => ?_⟩ <;>
      simp [is_entry_dir, hnt, BasicDirEntryInfo.get_filetype, h]
  · intro hnt
    simp only [is_entry_dir, hnt, if_false, httm_is_dir,
      BasicDirEntryInfo.get_filetype, h]
    rcases hc : w.canonicalizeFn e.path with _ | target
    · simp [hc]
    · rcases hd : w.isDirOnDisk target with _ | _
      · simp [hc, hd]
      · simp [hc, hd, List.all_eq_true]

/-- The environment for the C9 witness: the link resolves to a directory
outside its own ancestry. -/
def wW9 : World :=
  { canonicalizeFn := fun _ => some ["d", "target"]
    isDirOnDisk := fun _ => true }

/-- A symlink entry for the C9 witness. -/
def eW9 : BasicDirEntryInfo := { path := ["d", "link"], file_type := some .symlink }

/-- Claim C9, witness: with `no-traverse` unset, the concrete symlink
whose target is a directory and not an ancestor is classified as a
directory. -/
theorem claim9_witness :
    eW9.file_type = some FileTypeModel.symlink
    ∧ is_entry_dir wW9 cfgBase eW9 = true :=
  ⟨rfl,
   ((claim9_theorem wW9 cfgBase eW9 rfl).2 rfl).mpr
     ⟨["d", "target"], rfl, rfl, by decide⟩⟩

/-! Claim C6: snapshot-dir and filter-dir dropping during enumeration. -/

/-- A configuration whose user-requested root is itself named `.zfs`. -/
def cfg6 : Config :=
  { cfgBase with
    opt_requested_dir := some { path_buf := ["pool", ".zfs"], metadata := Option.none } }

/-- A directory entry at the requested root of `cfg6`. -/
def e6 : BasicDirEntryInfo := { path := ["pool", ".zfs"], file_type := some .dir }

/-- Claim C6, counterexample: a directory entry matching the ZFS hidden
dir `.zfs` is dropped even though its path equals the exact user-requested
root — the requested-root exception is tested only after the `.zfs`,
`.snapshots` and common-snap-dir checks. -/
theorem claim6_counterexample :
    cfg6.opt_requested_dir =
      some { path_buf := ["pool", ".zfs"], metadata := Option.none }
    ∧ e6.path = ["pool", ".zfs"]
    ∧ e6.get_filetype = .ok FileTypeModel.dir
    ∧ cfg6.opt_no_filter = false
    ∧ cfg6.opt_no_hidden = false
    ∧ keep_entry cfg6 e6 = false := by
  decide

/-- Claim C6 (amended): with the global no-filter switch unset and
no-hidden unset, a directory entry is dropped iff it matches `.zfs`,
`.snapshots`, or the configured common snap dir — the requested-root
exception does not protect these — or it is a `filter_dirs` member other
than the exact user-requested root whose component count does not exceed
the filter set's maximum depth. -/
theorem claim6_theorem (config : Config) (e : BasicDirEntryInfo)
    (hnf : config.opt_no_filter = false) (hnh : config.opt_no_hidden = false)
    (hd : e.get_filetype = .ok FileTypeModel.dir) :
    keep_entry config e = false ↔
      (e.path.getLast? = some ".zfs"
       ∨ e.path.getLast? = some ".snapshots"
       ∨ config.dataset_collection.opt_common_snap_dir = some e.path
       ∨ ((∀ r, config.opt_requested_dir = some r → r.path_buf ≠ e.path)
          ∧ e.path.length ≤ get_max_len config.dataset_collection.filter_dirs
          ∧ e.path ∈ config.dataset_collection.filter_dirs)) := by
  have hkeep : keep_entry config e = !is_filter_dir config e := by
    simp [keep_entry, hnf, hnh, hd]
  rw [hkeep, Bool.not_eq_false']
  rcases hcs : config.dataset_collection.opt_common_snap_dir with _ | common <;>
    rcases hrq : config.opt_requested_dir with _ | r <;>
      simp only [is_filter_dir, hcs, hrq] <;>
      split_ifs <;>
      simp_all [List.any_eq_true] <;>
      first
        | omega
        | tauto

/-- A configuration with `/proc` in `filter_dirs`. -/
def cfg6w : Config :=
  { cfgBase with
    dataset_collection :=
      { cfgBase.dataset_collection with filter_dirs := [["proc"]] } }

/-- A directory entry at the filter dir of `cfg6w`. -/
def e6w : BasicDirEntryInfo := { path := ["proc"], file_type := some .dir }

/-- Claim C6, witness: a `filter_dirs` member that is not the requested
root is dropped. -/
theorem claim6_witness : keep_entry cfg6w e6w = false :=
  (claim6_theorem cfg6w e6w rfl rfl rfl).mpr (by decide)

/-! Claim C5: the `NoCopiesFound` top-level error. -/

/-- Claim C5: the top-level version lookup returns `NoCopiesFound` iff
every value sequence of the computed map is empty, every live key is
phantom (has no metadata), and snapshot output was not explicitly
disabled; in every other case it returns the computed map unchanged. -/
theorem claim5_theorem (config : Config) (fs : Fs) (path_set : List PathData) :
    (versions_lookup_exec config fs path_set = .error .noCopiesFound ↔
      ((∀ kv ∈ DisplayMap.new config fs path_set, kv.2 = [])
       ∧ (∀ kv ∈ DisplayMap.new config fs path_set, kv.1.metadata = Option.none)
       ∧ config.opt_no_snap = false))
    ∧ (versions_lookup_exec config fs path_set = .error .noCopiesFound
       ∨ versions_lookup_exec config fs path_set =
           .ok (DisplayMap.new config fs path_set)) := by
  unfold versions_lookup_exec
  by_cases h : ((DisplayMap.new config fs path_set).all (fun kv => kv.2.isEmpty)
      && (DisplayMap.new config fs path_set).all (fun kv => kv.1.metadata.isNone)
      && !config.opt_no_snap) = true
  · rw [if_pos h]
    simp only [Bool.and_eq_true, Bool.not_eq_true', List.all_eq_true,
      List.isEmpty_iff, Option.isNone_iff_eq_none] at h
    obtain ⟨⟨h1, h2⟩, h3⟩ := h
    refine ⟨?_, Or.inl rfl⟩
    simp only [true_iff]
    exact ⟨fun kv hkv => h1 kv hkv, fun kv hkv => h2 kv hkv, h3⟩
  · rw [if_neg h]
    simp only [Bool.and_eq_true, Bool.not_eq_true', List.all_eq_true,
      List.isEmpty_iff, Option.isNone_iff_eq_none, not_and] at h
    constructor
    · constructor
      · intro hx; exact absurd hx (by simp)
      · rintro ⟨h1, h2, h3⟩
        exact absurd h3 (h ⟨h1, h2⟩)
    · exact Or.inr rfl

/-! Claim C4: proximity resolution. -/

/-- The ancestors list has strictly decreasing component counts (the path
itself comes first, the root last). -/
theorem ancestors_length_pairwise (p : SPath) :
    List.Pairwise (fun a b : SPath => b.length < a.length) (ancestors p) := by
  unfold ancestors
  rw [List.pairwise_map]
  refine (List.pairwise_lt_range (p.length + 1)).imp_of_mem ?_
  intro a b ha hb hab
  have hb' : b < p.length + 1 := List.mem_range.mp hb
  simp only [List.length_take]
  omega

/-- On a list whose elements are pairwise related by `R`, `find?` returns
an element that every other match either equals or is `R`-below. -/
theorem find?_first_of_pairwise {α : Type} {p : α → Bool} {R : α → α → Prop} :
    ∀ {l : List α} {d : α}, List.Pairwise R l → l.find? p = some d →
      ∀ x ∈ l, p x = true → x = d ∨ R d x := by
  intro l
  induction l with
  | nil => intro d _ hf; simp at hf
  | cons h t ih =>
    intro d hp hf x hx hpx
    rcases List.pairwise_cons.mp hp with ⟨hhead, htail⟩
    by_cases hph : p h = true
    · rw [List.find?_cons_of_pos t hph] at hf
      injection hf with hf
      subst hf
      rcases List.mem_cons.mp hx with hx | hx
      · exact Or.inl hx
      · exact Or.inr (hhead x hx)
    · rw [List.find?_cons_of_neg t hph] at hf
      rcases List.mem_cons.mp hx with hx | hx
      · subst hx; exact absurd hpx hph
      · exact ih htail hf x hx hpx

/-- Claim C4: proximity resolution first checks aliases — when the aliases
map is present and some ancestor of the path (walking from the path itself
up toward the root) is an alias key, that alias's `remote_dir` is returned;
otherwise the nearest ancestor (longest, e.g. `/tank` over `/`) that is a
key of datasets is returned; when neither exists the resolver signals
`NoQualifyingDataset`. -/
theorem claim4_theorem (config : Config) (pd : PathData) :
    (∀ m, config.dataset_collection.opt_map_of_aliases = some m →
      (∃ a ∈ ancestors pd.path_buf, (alookup m a).isSome = true) →
      ∃ a ∈ ancestors pd.path_buf, ∃ info, alookup m a = some info ∧
        proximate_dataset_mount_of config pd = .ok info.remote_dir)
    ∧ ((∀ m, config.dataset_collection.opt_map_of_aliases = some m →
        ∀ a ∈ ancestors pd.path_buf, alookup m a = Option.none) →
      ∀ d ∈ ancestors pd.path_buf,
        acontains config.dataset_collection.map_of_datasets d = true →
        (∀ d' ∈ ancestors pd.path_buf,
          acontains config.dataset_collection.map_of_datasets d' = true →
          d'.length ≤ d.length) →
        proximate_dataset_mount_of config pd = .ok d)
    ∧ ((∀ m, config.dataset_collection.opt_map_of_aliases = some m →
        ∀ a ∈ ancestors pd.path_buf, alookup m a = Option.none) →
      (∀ d ∈ ancestors pd.path_buf,
        acontains config.dataset_collection.map_of_datasets d = false) →
      proximate_dataset_mount_of config pd = .error .noQualifyingDataset) := by
  have halias_none : ∀ m,
      (∀ a ∈ ancestors pd.path_buf, alookup m a = Option.none) →
      get_alias_dataset pd m = Option.none := by
    intro m hm
    unfold get_alias_dataset
    rw [List.findSome?_eq_none_iff]
    intro a ha
    rw [hm a ha]
    rfl
  refine ⟨?_, ?_, ?_⟩
  · intro m hm ⟨a, ha, hsome⟩
    unfold proximate_dataset_mount_of
    rw [hm]
    rcases hga : get_alias_dataset pd m with _ | r
    · unfold get_alias_dataset at hga
      rw [List.findSome?_eq_none_iff] at hga
      have := hga a ha
      rw [Option.map_eq_none'] at this
      rw [this] at hsome
      simp at hsome
    · unfold get_alias_dataset at hga
      obtain ⟨a', ha', hmap⟩ := List.exists_of_findSome?_eq_some hga
      rw [Option.map_eq_some'] at hmap
      obtain ⟨info, hinfo, hrd⟩ := hmap
      refine ⟨a', ha', info, hinfo, ?_⟩
      simp [get_alias_dataset, hga, hrd]
  · intro hno d hd hmem hnear
    have hred : proximate_dataset_mount_of config pd =
        get_proximate_dataset pd config.dataset_collection.map_of_datasets := by
      unfold proximate_dataset_mount_of
      rcases hma : config.dataset_collection.opt_map_of_aliases with _ | m
      · rfl
      · simp [halias_none m (hno m hma)]
    rw [hred]
    unfold get_proximate_dataset
    have hsome : ((ancestors pd.path_buf).find?
        (fun a => acontains config.dataset_collection.map_of_datasets a)).isSome =
        true :=
      List.find?_isSome.mpr ⟨d, hd, hmem⟩
    rcases hf : (ancestors pd.path_buf).find?
        (fun a => acontains config.dataset_collection.map_of_datasets a) with
        _ | e
    · rw [hf] at hsome; simp at hsome
    · have hde : d = e ∨ d.length < e.length :=
        find?_first_of_pairwise (ancestors_length_pairwise pd.path_buf) hf d hd
          hmem
      have hle : e.length ≤ d.length :=
        hnear e (List.mem_of_find?_eq_some hf) (List.find?_some hf)
      rcases hde with hde | hde
      · rw [hde]
      · omega
  · intro hno hnone
    have hred : proximate_dataset_mount_of config pd =
        get_proximate_dataset pd config.dataset_collection.map_of_datasets := by
      unfold proximate_dataset_mount_of
      rcases hma : config.dataset_collection.opt_map_of_aliases with _ | m
      · rfl
      · simp [halias_none m (hno m hma)]
    rw [hred]
    unfold get_proximate_dataset
    have hf : (ancestors pd.path_buf).find?
        (fun a => acontains config.dataset_collection.map_of_datasets a) =
        Option.none := by
      rw [List.find?_eq_none]
      intro x hx
      rw [hnone x hx]
      simp
    rw [hf]

/-- The S5 inventory: datasets at both `/` and `/tank`. -/
def cfg4 : Config :=
  { cfgBase with
    dataset_collection :=
      { cfgBase.dataset_collection with
        map_of_datasets := [([], dmFix), (["tank"], dmFix)] } }

/-- The S5 path `/tank/sub/file`. -/
def pd4 : PathData := { path_buf := ["tank", "sub", "file"], metadata := some (1, 1) }

/-- Claim C4, witness: with datasets at both `/` and `/tank`, the resolver
returns the nearest ancestor `/tank` for `/tank/sub/file`. -/
theorem claim4_witness :
    proximate_dataset_mount_of cfg4 pd4 = .ok ["tank"] :=
  (claim4_theorem cfg4 pd4).2.1
    (fun m hm => Option.noConfusion hm)
    ["tank"] (by decide) (by decide) (by decide)

/-! Shared lemmas about `BTreeMap` collection. -/

/-- Every value stored after one insertion is the inserted value or one of
the previous values. -/
theorem snd_mem_of_mem_btInsert {K V : Type} (lt : K → K → Bool) (k : K)
    (v : V) : ∀ l kv, kv ∈ btInsert lt k v l →
      kv.2 = v ∨ kv.2 ∈ l.map Prod.snd := by
  intro l
  induction l with
  | nil => intro kv hkv; simp [btInsert] at hkv; simp [hkv]
  | cons hd t ih =>
    intro kv hkv
    unfold btInsert at hkv
    by_cases h1 : lt k hd.1 = true
    · simp only [h1, if_true] at hkv
      rcases List.mem_cons.mp hkv with h | h
      · simp [h]
      · rcases List.mem_cons.mp h with h | h
        · right; rw [h]; simp
        · right; simp only [List.map_cons, List.mem_cons]
          exact Or.inr (List.mem_map_of_mem Prod.snd h)
    · by_cases h2 : lt hd.1 k = true
      · simp only [h1, h2, if_true, if_false] at hkv
        rcases List.mem_cons.mp hkv with h | h
        · right; rw [h]; simp
        · rcases ih kv h with h | h
          · exact Or.inl h
          · right; simp only [List.map_cons, List.mem_cons]; exact Or.inr h
      · simp only [h1, h2, if_false] at hkv
        rcases List.mem_cons.mp hkv with h | h
        · simp [h]
        · right; simp only [List.map_cons, List.mem_cons]
          exact Or.inr (List.mem_map_of_mem Prod.snd h)

/-- Every value of a collected `BTreeMap` is one of the input pair
values. -/
theorem snd_mem_of_mem_btCollect {K V : Type} (lt : K → K → Bool) :
    ∀ (pairs : List (K × V)) acc kv,
      kv ∈ pairs.foldl (fun a p => btInsert lt p.1 p.2 a) acc →
      kv.2 ∈ acc.map Prod.snd ∨ kv.2 ∈ pairs.map Prod.snd := by
  intro pairs
  induction pairs with
  | nil => intro acc kv hkv; left; exact List.mem_map_of_mem Prod.snd hkv
  | cons p ps ih =>
    intro acc kv hkv
    rcases ih (btInsert lt p.1 p.2 acc) kv hkv with h | h
    · rw [List.mem_map] at h
      obtain ⟨kv', hkv', hsnd⟩ := h
      rcases snd_mem_of_mem_btInsert lt p.1 p.2 acc kv' hkv' with h' | h'
      · right; rw [← hsnd, h']; simp
      · left; rw [← hsnd]; exact h'
    · right; simp only [List.map_cons, List.mem_cons]; exact Or.inr h

/-- Every value of `DisplayMap::new` is the per-path pipeline output of
some input path: paths are processed independently. -/
theorem displayMap_value_of_path (config : Config) (fs : Fs)
    (path_set : List PathData) :
    ∀ kv ∈ DisplayMap.new config fs path_set,
      ∃ pd ∈ path_set,
        kv.2 = apply_last_snap config pd (snaps_for_path config fs pd) := by
  intro kv hkv
  have h := snd_mem_of_mem_btCollect pdLtB
    (path_set.map
      (fun pd => (pd, apply_last_snap config pd (snaps_for_path config fs pd))))
    [] kv hkv
  rcases h with h | h
  · simp at h
  · rw [List.map_map, List.mem_map] at h
    obtain ⟨pd, hpd, heq⟩ := h
    exact ⟨pd, hpd, heq.symm⟩

/-! Claim C8: missing snapshots for a dataset. -/

/-- If an `Except`-valued `mapM` succeeds, every element succeeded. -/
theorem mapM_ok_forall {ε α β : Type} (f : α → Except ε β) :
    ∀ (l : List α) (ys : List β), l.mapM f = .ok ys →
      ∀ x ∈ l, ∃ y, f x = .ok y := by
  intro l
  induction l with
  | nil => intro ys _ x hx; simp at hx
  | cons h t ih =>
    intro ys hok x hx
    rw [List.mapM_cons] at hok
    rcases hf : f h with e | b
    · rw [hf] at hok
      exact Except.noConfusion hok
    · rw [hf] at hok
      rcases ht : t.mapM f with e' | ys'
      · rw [ht] at hok
        exact Except.noConfusion hok
      · rw [ht] at hok
        rcases List.mem_cons.mp hx with hx | hx
        · exact ⟨b, hx ▸ hf⟩
        · exact ih ys' ht x hx

/-- The C8 inventory: the alt set of `/mnt` names datasets `d1` and `d2`;
only `d2` has a snaps entry. -/
def cfg8 : Config :=
  { cfgBase with
    dataset_collection :=
      { cfgBase.dataset_collection with
        map_of_snaps := [(["d2"], [["s2"]])]
        opt_map_of_alts :=
          some [(["mnt"],
            { proximate_dataset_mount := ["mnt"]
              opt_datasets_of_interest := some [["d1"], ["d2"]] })]
        snaps_selected_for_search := .includeAltReplicated } }

/-- The C8 filesystem: `d2`'s snapshot holds a version of `f`. -/
def fs8 : Fs := [(["s2", "f"], (5, 1)), (["mnt", "f"], (10, 1))]

/-- The C8 live path `/mnt/f`. -/
def pd8 : PathData := { path_buf := ["mnt", "f"], metadata := some (10, 1) }

/-- Claim C8, counterexample: dataset `d1` has no snaps entry, so its
bundle construction fails with `NoSnapshotsForDataset`; but the error does
not leave the lookup of the sibling dataset `d2` unaffected — the
short-circuiting collection suppresses `d2`'s bundle as well, and the path
contributes no candidates at all even though `d2` held a version. -/
theorem claim8_counterexample :
    alookup cfg8.dataset_collection.map_of_snaps ["d1"] = Option.none
    ∧ RelativePathAndSnapMounts.new cfg8 pd8 ["mnt"] ["d1"] =
        .error .noSnapshotsForDataset
    ∧ RelativePathAndSnapMounts.new cfg8 pd8 ["mnt"] ["d2"] =
        .ok { relative_path := ["f"], snap_mounts := [["s2"]] }
    ∧ RelativePathAndSnapMounts.get_versions fs8
        { relative_path := ["f"], snap_mounts := [["s2"]] } ≠ []
    ∧ DisplayMap.new cfg8 fs8 [pd8] = [(pd8, [])] := by
  decide

/-- Claim C8 (amended): a missing snaps entry for the dataset of interest
makes bundle construction fail with the recoverable
`NoSnapshotsForDataset`; the caller flattens a failed bundle construction
to no candidates; within an alt-replicated dataset set the collection
short-circuits, so one failing dataset suppresses every bundle of that
set; across paths the lookup is unaffected — every value of the map is
computed from its own path alone. -/
theorem claim8_theorem :
    (∀ (config : Config) (pd : PathData) (prox d rel : SPath),
      get_relative_path config pd prox = .ok rel →
      alookup config.dataset_collection.map_of_snaps d = Option.none →
      RelativePathAndSnapMounts.new config pd prox d =
        .error .noSnapshotsForDataset)
    ∧ (∀ (config : Config) (dfs : MostProximateAndOptAlts) (pd : PathData)
        (err : ErrKind),
      MostProximateAndOptAlts.get_search_bundles config dfs pd = .error err →
      exceptToList (MostProximateAndOptAlts.get_search_bundles config dfs pd) =
        [])
    ∧ (∀ (config : Config) (dfs : MostProximateAndOptAlts) (pd : PathData)
        (ds : List SPath) (d : SPath),
      dfs.opt_datasets_of_interest = some ds → d ∈ ds →
      (∀ b, RelativePathAndSnapMounts.new config pd dfs.proximate_dataset_mount
        d ≠ .ok b) →
      ∃ e, MostProximateAndOptAlts.get_search_bundles config dfs pd =
        .error e)
    ∧ (∀ (config : Config) (fs : Fs) (path_set : List PathData),
      ∀ kv ∈ DisplayMap.new config fs path_set,
      ∃ pd ∈ path_set,
        kv.2 = apply_last_snap config pd (snaps_for_path config fs pd)) := by
  refine ⟨?_, ?_, ?_, ?_⟩
  · intro config pd prox d rel hrel hsnaps
    unfold RelativePathAndSnapMounts.new
    rw [hrel]
    show (match alookup config.dataset_collection.map_of_snaps d with
      | some snap_mounts =>
        (Except.ok
          (RelativePathAndSnapMounts.mk rel snap_mounts) :
          HttmResult RelativePathAndSnapMounts)
      | Option.none => .error .noSnapshotsForDataset) =
      .error .noSnapshotsForDataset
    rw [hsnaps]
  · intro config dfs pd err herr
    rw [herr]
    rfl
  · intro config dfs pd ds d hds hd hfail
    unfold MostProximateAndOptAlts.get_search_bundles
    rw [hds]
    rcases hmap : ds.mapM
        (fun dataset_of_interest =>
          RelativePathAndSnapMounts.new config pd dfs.proximate_dataset_mount
            dataset_of_interest) with e | ys
    · exact ⟨e, hmap⟩
    · obtain ⟨y, hy⟩ := mapM_ok_forall _ ds ys hmap d hd
      exact absurd hy (hfail y)
  · exact displayMap_value_of_path

/-- Claim C8, witness: a concrete instance of the failing bundle
construction. -/
theorem claim8_witness :
    RelativePathAndSnapMounts.new cfgBase pd8 ["mnt"] ["dx"] =
      .error .noSnapshotsForDataset :=
  claim8_theorem.1 cfgBase pd8 ["mnt"] ["dx"] ["f"] (by decide) (by decide)

/-! Claim C1: ordering and deduplication of per-key snapshot records. -/

/-- `metaLtP` is transitive. -/
theorem metaLtP_trans {a b c : Meta} (h1 : metaLtP a b) (h2 : metaLtP b c) :
    metaLtP a c := by
  unfold metaLtP at *
  omega

/-- Two metadata keys neither of which is below the other are equal. -/
theorem metaEq_of_not_lt {a b : Meta} (h1 : metaLtB a b = false)
    (h2 : metaLtB b a = false) : a = b := by
  unfold metaLtB at h1 h2
  rw [decide_eq_false_iff_not] at h1 h2
  unfold metaLtP at h1 h2
  obtain ⟨a1, a2⟩ := a
  obtain ⟨b1, b2⟩ := b
  simp only [Prod.mk.injEq]
  simp only [not_or, not_and, not_lt] at h1 h2
  omega

/-- Membership after a keyed insertion: the inserted pair or an original
member. -/
theorem mem_btInsert_meta (k : Meta) (v : PathData) :
    ∀ (l : List (Meta × PathData)) kv, kv ∈ btInsert metaLtB k v l →
      kv = (k, v) ∨ kv ∈ l := by
  intro l
  induction l with
  | nil =>
    intro kv h
    simp [btInsert] at h
    exact Or.inl h
  | cons hd t ih =>
    obtain ⟨k', v'⟩ := hd
    intro kv h
    unfold btInsert at h
    by_cases h1 : metaLtB k k' = true
    · simp only [h1, if_true] at h
      rcases List.mem_cons.mp h with h | h
      · exact Or.inl h
      · exact Or.inr h
    · rw [Bool.not_eq_true] at h1
      by_cases h2 : metaLtB k' k = true
      · simp only [h1, h2, Bool.false_eq_true, if_false, if_true] at h
        rcases List.mem_cons.mp h with h | h
        · exact Or.inr (h ▸ List.mem_cons_self _ _)
        · rcases ih kv h with h | h
          · exact Or.inl h
          · exact Or.inr (List.mem_cons_of_mem _ h)
      · rw [Bool.not_eq_true] at h2
        simp only [h1, h2, Bool.false_eq_true, if_false] at h
        rcases List.mem_cons.mp h with h | h
        · rw [← metaEq_of_not_lt h1 h2] at h
          exact Or.inl h
        · exact Or.inr (List.mem_cons_of_mem _ h)

/-- Keyed insertion preserves strict sortedness of the keys. -/
theorem pairwise_btInsert_meta (k : Meta) (v : PathData) :
    ∀ (l : List (Meta × PathData)),
      List.Pairwise (fun x y : Meta × PathData => metaLtP x.1 y.1) l →
      List.Pairwise (fun x y : Meta × PathData => metaLtP x.1 y.1)
        (btInsert metaLtB k v l) := by
  intro l
  induction l with
  | nil => intro _; simp [btInsert]
  | cons hd t ih =>
    obtain ⟨k', v'⟩ := hd
    intro hp
    rcases List.pairwise_cons.mp hp with ⟨hhead, htail⟩
    unfold btInsert
    by_cases h1 : metaLtB k k' = true
    · simp only [h1, if_true]
      refine List.pairwise_cons.mpr ⟨?_, hp⟩
      intro y hy
      have hkk' : metaLtP k k' := by
        have := h1
        unfold metaLtB at this
        exact of_decide_eq_true this
      rcases List.mem_cons.mp hy with hy | hy
      · rw [hy]; exact hkk'
      · exact metaLtP_trans hkk' (hhead y hy)
    · rw [Bool.not_eq_true] at h1
      by_cases h2 : metaLtB k' k = true
      · simp only [h1, h2, Bool.false_eq_true, if_false, if_true]
        refine List.pairwise_cons.mpr ⟨?_, ih htail⟩
        intro y hy
        have hk'k : metaLtP k' k := by
          unfold metaLtB at h2
          exact of_decide_eq_true h2
        rcases mem_btInsert_meta k v t y hy with hy | hy
        · rw [hy]; exact hk'k
        · exact hhead y hy
      · rw [Bool.not_eq_true] at h2
        simp only [h1, h2, Bool.false_eq_true, if_false]
        exact List.pairwise_cons.mpr ⟨hhead, htail⟩

/-- Collecting metadata-keyed pairs yields a strictly key-sorted list in
which every stored record carries its own key as metadata. -/
theorem btCollect_meta_inv :
    ∀ (pairs acc : List (Meta × PathData)),
      List.Pairwise (fun x y : Meta × PathData => metaLtP x.1 y.1) acc →
      (∀ kv ∈ acc, kv.2.metadata = some kv.1) →
      (∀ kv ∈ pairs, kv.2.metadata = some kv.1) →
      List.Pairwise (fun x y : Meta × PathData => metaLtP x.1 y.1)
        (pairs.foldl (fun a p => btInsert metaLtB p.1 p.2 a) acc)
      ∧ ∀ kv ∈ pairs.foldl (fun a p => btInsert metaLtB p.1 p.2 a) acc,
          kv.2.metadata = some kv.1 := by
  intro pairs
  induction pairs with
  | nil => intro acc hpw hinv _; exact ⟨hpw, hinv⟩
  | cons p ps ih =>
    intro acc hpw hinv hin
    have hp : p.2.metadata = some p.1 := hin p (List.mem_cons_self _ _)
    refine ih (btInsert metaLtB p.1 p.2 acc)
      (pairwise_btInsert_meta p.1 p.2 acc hpw) ?_
      (fun kv hkv => hin kv (List.mem_cons_of_mem _ hkv))
    intro kv hkv
    rcases mem_btInsert_meta p.1 p.2 acc kv hkv with h | h
    · rw [h]; exact hp
    · exact hinv kv h

/-- The output of `get_versions` is strictly increasing in
`(modify_time, size)`. -/
theorem get_versions_pairwise (fs : Fs) (b : RelativePathAndSnapMounts) :
    List.Pairwise
      (fun x y : PathData => metaLtP x.md_infallible y.md_infallible)
      (b.get_versions fs) := by
  unfold RelativePathAndSnapMounts.get_versions
  have hin : ∀ kv ∈ (((b.snap_mounts.map (fun path => path ++ b.relative_path)).map
      (fun joined_path => pathDataFrom fs joined_path)).filterMap
      (fun pd => pd.metadata.map (fun md => (md, pd)))),
      kv.2.metadata = some kv.1 := by
    intro kv hkv
    rw [List.mem_filterMap] at hkv
    obtain ⟨pd, _, hmap⟩ := hkv
    rw [Option.map_eq_some'] at hmap
    obtain ⟨md, hmd, heq⟩ := hmap
    rw [← heq]
    exact hmd
  obtain ⟨hpw, hinv⟩ := btCollect_meta_inv _ [] (by simp) (by simp) hin
  rw [List.pairwise_map]
  refine hpw.imp_of_mem ?_
  intro x y hx hy hrel
  have hxm := hinv x hx
  have hym := hinv y hy
  unfold PathData.md_infallible
  rw [hxm, hym]
  exact hrel

/-- The last-snap reduction emits at most one record. -/
theorem get_last_snap_length_le_one (m : LastSnapMode) (pd : PathData)
    (snaps : List PathData) : (get_last_snap m pd snaps).length ≤ 1 := by
  unfold get_last_snap
  rcases snaps.getLast? with _ | last <;> cases m <;> simp <;>
    (try split_ifs) <;> simp

/-- A list of at most one element is vacuously pairwise. -/
theorem pairwise_of_length_le_one {α : Type} {R : α → α → Prop}
    (l : List α) (h : l.length ≤ 1) : List.Pairwise R l := by
  match l with
  | [] => exact List.Pairwise.nil
  | [a] => simp
  | a :: b :: t => simp at h

/-- With no datasets-of-interest list, the search bundles are the single
proximate bundle (or that bundle's error). -/
theorem get_search_bundles_none (config : Config)
    (dfs : MostProximateAndOptAlts) (pd : PathData)
    (hdfs : dfs.opt_datasets_of_interest = Option.none) :
    MostProximateAndOptAlts.get_search_bundles config dfs pd =
      (match RelativePathAndSnapMounts.new config pd
          dfs.proximate_dataset_mount dfs.proximate_dataset_mount with
       | .ok b => .ok [b]
       | .error e => .error e) := by
  unfold MostProximateAndOptAlts.get_search_bundles
  rw [hdfs]
  rcases hB : RelativePathAndSnapMounts.new config pd
      dfs.proximate_dataset_mount dfs.proximate_dataset_mount with e | b <;>
    rfl

/-- Under the `MostProximateOnly` strategy the per-path candidate pipeline
draws from a single search bundle, so its output is strictly increasing in
`(modify_time, size)`. -/
theorem snaps_for_path_pairwise (config : Config) (fs : Fs) (pd : PathData)
    (h : config.dataset_collection.snaps_selected_for_search =
      SnapsSelectedForSearch.mostProximateOnly) :
    List.Pairwise
      (fun x y : PathData => metaLtP x.md_infallible y.md_infallible)
      (snaps_for_path config fs pd) := by
  unfold snaps_for_path
  rw [h]
  simp only [SnapsSelectedForSearch.get_value]
  rcases hN : MostProximateAndOptAlts.new config pd .mostProximate with e | dfs
  · simp [hN, exceptToList]
  · have hdfs : dfs.opt_datasets_of_interest = Option.none := by
      unfold MostProximateAndOptAlts.new at hN
      rcases hP : proximate_dataset_mount_of config pd with e | prox
      · rw [hP] at hN
        exact Except.noConfusion hN
      · rw [hP] at hN
        have : ({ proximate_dataset_mount := prox
                  opt_datasets_of_interest := Option.none } :
            MostProximateAndOptAlts) = dfs := Except.ok.inj hN
        rw [← this]
    simp only [hN, exceptToList, List.flatMap_cons, List.flatMap_nil,
      List.append_nil]
    rw [get_search_bundles_none config dfs pd hdfs]
    rcases hB : RelativePathAndSnapMounts.new config pd
        dfs.proximate_dataset_mount dfs.proximate_dataset_mount with e | b
    · exact List.Pairwise.nil
    · show List.Pairwise
        (fun x y : PathData => metaLtP x.md_infallible y.md_infallible)
        (List.filter
          (fun snap_version =>
            if config.opt_omit_ditto = true then
              !decide (snap_version.md_infallible = pd.md_infallible)
            else true)
          (RelativePathAndSnapMounts.get_versions fs b ++ []))
      rw [List.append_nil]
      exact List.Pairwise.sublist (List.filter_sublist _)
        (get_versions_pairwise fs b)

/-- The configuration of the C1 counterexample: `IncludeAltReplicated`
with an alt dataset `altd` alongside the proximate `/mnt`. -/
def cfg1 : Config :=
  { cfgBase with
    dataset_collection :=
      { cfgBase.dataset_collection with
        map_of_snaps :=
          [(["altd"], [["altd", ".zfs", "snapshot", "s1"]]),
           (["mnt"], [["mnt", ".zfs", "snapshot", "a"]])]
        opt_map_of_alts :=
          some [(["mnt"],
            { proximate_dataset_mount := ["mnt"]
              opt_datasets_of_interest := some [["altd"]] })]
        snaps_selected_for_search := .includeAltReplicated } }

/-- The C1 filesystem: the alt snapshot's copy of `f` is newer than the
proximate snapshot's copy. -/
def fs1 : Fs :=
  [(["altd", ".zfs", "snapshot", "s1", "f"], (5, 1)),
   (["mnt", ".zfs", "snapshot", "a", "f"], (3, 1)),
   (["mnt", "f"], (10, 1))]

/-- The C1 live path `/mnt/f`. -/
def pd1 : PathData := { path_buf := ["mnt", "f"], metadata := some (10, 1) }

/-- Claim C1, counterexample: with `IncludeAltReplicated` and candidates
from two search bundles (alt first), the per-key sequence is
`[(5,1), (3,1)]` — not non-decreasing in `(mtime, size)`. -/
theorem claim1_counterexample :
    cfg1.dataset_collection.snaps_selected_for_search =
      SnapsSelectedForSearch.includeAltReplicated
    ∧ ¬ (∀ kv ∈ DisplayMap.new cfg1 fs1 [pd1],
        List.Pairwise
          (fun a b : PathData => metaLtP a.md_infallible b.md_infallible)
          kv.2) := by
  decide

/-- Claim C1 (amended): whenever candidates come from a single search
bundle — in particular under the `MostProximateOnly` strategy — the
snapshot-record sequence attached to each live key of the returned map is
strictly increasing in `(modify_time, size)` (hence non-decreasing and free
of duplicate pairs); under `IncludeAltReplicated` the concatenation of
per-bundle sequences need not be ordered or deduplicated across bundles. -/
theorem claim1_theorem (config : Config) (fs : Fs) (path_set : List PathData)
    (h : config.dataset_collection.snaps_selected_for_search =
      SnapsSelectedForSearch.mostProximateOnly) :
    ∀ kv ∈ DisplayMap.new config fs path_set,
      List.Pairwise
        (fun a b : PathData => metaLtP a.md_infallible b.md_infallible)
        kv.2 := by
  intro kv hkv
  obtain ⟨pd, _, heq⟩ := displayMap_value_of_path config fs path_set kv hkv
  rw [heq]
  unfold apply_last_snap
  rcases config.opt_last_snap with _ | m
  · exact snaps_for_path_pairwise config fs pd h
  · exact pairwise_of_length_le_one _
      (get_last_snap_length_le_one m pd (snaps_for_path config fs pd))

/-- The C1 witness filesystem: two proximate snapshot copies in order. -/
def fs1w : Fs :=
  [(["mnt", ".zfs", "snapshot", "a", "f"], (3, 1)), (["mnt", "f"], (10, 1))]

/-- The C1 witness live path. -/
def pd1w : PathData := { path_buf := ["mnt", "f"], metadata := some (10, 1) }

/-- Claim C1, witness: the amended theorem at a concrete
`MostProximateOnly` inventory. -/
theorem claim1_witness :
    cfgBase.dataset_collection.snaps_selected_for_search =
      SnapsSelectedForSearch.mostProximateOnly
    ∧ ∀ kv ∈ DisplayMap.new cfgBase fs1w [pd1w],
        List.Pairwise
          (fun a b : PathData => metaLtP a.md_infallible b.md_infallible)
          kv.2 :=
  ⟨rfl, claim1_theorem cfgBase fs1w [pd1w] rfl⟩

end Httm
